import Mathlib

/-!
# Verification of the locness-nmea-gps GPS logger

A shallow embedding of `src/locness_nmea_gps/gps.py` and
`src/locness_nmea_gps/query_db.py`, with theorems settling claims
about fix extraction, persistence, the acquisition loop, and the
single-shot reader.

Modelling conventions:
* Coordinates are rationals (`ℚ`); the Python code only moves float
  values around (`float(...)` on an already-numeric value is the
  identity), so exact arithmetic is a faithful model of the data flow.
* A decoded pynmeagps sentence is modelled by `ParsedSentence`: an
  attribute that `hasattr` would report missing is `Field.absent`; a
  present attribute carries either a numeric value (`FVal.numv`) or a
  string (`FVal.strv`; pynmeagps uses `""` for an empty field).
  `parsed_data.time` is modelled by its stringified form, since the
  code only ever applies `str` to it.
* Python truthiness (`if parsed_data.lat`) is `FVal.truthy`: a float is
  truthy iff nonzero, a string iff nonempty.
* `float(x)` is `FVal.pyFloat`: the identity on numbers, a decimal
  parse on strings; a failed parse models the `ValueError` that the
  enclosing `except Exception` handler catches.
* The filesystem and the SQLite database are explicit state
  (`SysState`): the CSV file is `none` when absent, otherwise a header
  count plus data rows; the database is `none` when the file is absent,
  otherwise a list of named tables, each with its column list, so that
  an `INSERT` naming a nonexistent column fails exactly as sqlite does.
* `datetime.now()` readings and stream events (sentences, exceptions)
  are inputs: a trace of `ReadEvent`s per connection.
-/

deriving instance DecidableEq for Except

namespace Gps

/-- A decimal-digit string to a natural number; `none` when empty or a
non-digit appears (models `float` rejecting the text). -/
def parseNatDigits (cs : List Char) : Option Nat :=
  if cs = [] then none
  else
    cs.foldl
      (fun acc c =>
        match acc with
        | none => none
        | some n => if c.isDigit then some (10 * n + (c.toNat - 48)) else none)
      (some 0)

/-- Split a character list on a separator character (structural, so
that concrete inputs evaluate inside the kernel). -/
def splitOnChar (sep : Char) (cs : List Char) : List (List Char) :=
  match cs with
  | [] => [[]]
  | x :: xs =>
      match splitOnChar sep xs with
      | [] => if x = sep then [[], []] else [[x]]
      | g :: gs => if x = sep then [] :: g :: gs else (x :: g) :: gs

/-- Python `float(s)` on a string, restricted to the plain decimal
grammar `[+-]digits[.digits]` that NMEA coordinate fields use; `none`
models the `ValueError` raised on non-numeric text. -/
def strParseRat (s : String) : Option ℚ :=
  let (neg, t) :=
    match s.toList with
    | '-' :: rest => (true, rest)
    | '+' :: rest => (false, rest)
    | cs => (false, cs)
  match splitOnChar '.' t with
  | [w] =>
      (parseNatDigits w).map fun n =>
        if neg then mkRat (-(n : Int)) 1 else mkRat (n : Int) 1
  | [w, f] =>
      match parseNatDigits w, parseNatDigits f with
      | some wn, some fn =>
          let den : Nat := 10 ^ f.length
          let num : Int := (wn * den + fn : Nat)
          some (if neg then mkRat (-num) den else mkRat num den)
      | _, _ => none
  | _ => none

/-- The value of a present pynmeagps attribute: a float or a string. -/
inductive FVal where
  | numv (q : ℚ)
  | strv (s : String)
  deriving DecidableEq, Repr

/-- Python truthiness of an attribute value. -/
def FVal.truthy : FVal → Bool
  | .numv q => q ≠ 0
  | .strv s => s ≠ ""

/-- Python `float(v)`: identity on numbers, decimal parse on strings;
`none` models the raised `ValueError`. -/
def FVal.pyFloat : FVal → Option ℚ
  | .numv q => some q
  | .strv s => strParseRat s

/-- A pynmeagps attribute as seen through `hasattr`. -/
inductive Field where
  | absent
  | val (v : FVal)
  deriving DecidableEq, Repr

/-- A decoded NMEA sentence as the code observes it: its `msgID`, its
stringified `time` attribute (absent when `hasattr` fails), and its
`lat` / `lon` attributes. -/
structure ParsedSentence where
  msgID : String
  time : Option String
  lat : Field
  lon : Field
  deriving DecidableEq, Repr

/-- The canonical fix record built by both read paths
(`pc_time`, `nmea_time`, `latitude`, `longitude`). -/
structure Fix where
  pc_time : String
  nmea_time : String
  latitude : ℚ
  longitude : ℚ
  deriving DecidableEq, Repr

/-- Outcome of the shared extraction fragment: a fix, no fix (wrong
kind or a falsy coordinate), or an exception from `float(...)` that
the enclosing `except Exception` handler will catch. -/
inductive ExtractResult where
  | fix (f : Fix)
  | noFix
  | exn
  deriving DecidableEq, Repr

/-- `float(d.lat) if hasattr(d, 'lat') and d.lat else None`:
`.ok none` when the attribute is missing or falsy, `.ok (some q)` on a
successful conversion, `.error ()` when `float` raises. -/
def coordOf : Field → Except Unit (Option ℚ)
  | .absent => .ok none
  | .val v =>
      if v.truthy then
        match v.pyFloat with
        | some q => .ok (some q)
        | none => .error ()
      else .ok none

/-- The extraction fragment shared by `start_logging` and
`read_gga_single` (gps.py lines 134–141 / 91–97): filter to `GGA`,
stringify the time, convert truthy coordinates, and build the fix only
when both coordinates are present. `pcTime` is the `datetime.now()`
reading taken while processing the sentence. -/
def extractGGA (pcTime : String) (p : Option ParsedSentence) : ExtractResult :=
  match p with
  | none => .noFix
  | some d =>
      if d.msgID = "GGA" then
        let nmeaTime := d.time.getD ""
        match coordOf d.lat with
        | .error _ => .exn
        | .ok latO =>
            match coordOf d.lon with
            | .error _ => .exn
            | .ok lonO =>
                match latO, lonO with
                | some la, some lo =>
                    .fix ⟨pcTime, nmeaTime, la, lo⟩
                | _, _ => .noFix
      else .noFix

/-- The fix produced by an extraction, if any. -/
def fixOf : ExtractResult → Option Fix
  | .fix f => some f
  | _ => none

example :
    extractGGA "t" (some ⟨"GGA", some "235959.00", .val (.numv (mkRat 75 2)),
      .val (.numv (mkRat (-1223) 10))⟩) =
      .fix ⟨"t", "235959.00", mkRat 75 2, mkRat (-1223) 10⟩ := by decide

example : strParseRat "37.5" = some (mkRat 75 2) := by decide
example : strParseRat "-122.3" = some (mkRat (-1223) 10) := by decide
example : strParseRat "" = none := by decide
example : strParseRat "abc" = none := by decide

/-! ## Persistence state: the CSV file and the SQLite database -/

/-- Contents of the CSV file: how many header rows it holds and its
data rows (each data row is the four fields of a `Fix`, written in
order by `csv.writer.writerow`). -/
structure CsvContent where
  header : Nat
  rows : List Fix
  deriving DecidableEq, Repr

/-- One row of the `gps` table as the `INSERT` would populate it
(the surrogate `id` and store-assigned `created_at` are elided). -/
structure DbRow where
  datetime_utc : Int
  nmea_time : String
  latitude : ℚ
  longitude : ℚ
  deriving DecidableEq, Repr

/-- A SQLite table: its declared column names and its rows. -/
structure Table where
  cols : List String
  rows : List DbRow
  deriving DecidableEq, Repr

/-- The world the logger mutates: the CSV file (`none` when the file
does not exist) and the database file (`none` when absent; otherwise
its named tables). -/
structure SysState where
  csv : Option CsvContent
  db : Option (List (String × Table))
  deriving DecidableEq, Repr

/-- Look a table up by name. -/
def findTable : List (String × Table) → String → Option Table
  | [], _ => none
  | (n, t) :: ts, m => if n = m then some t else findTable ts m

/-- Replace the rows of the named table. -/
def setRows : List (String × Table) → String → List DbRow → List (String × Table)
  | [], _, _ => []
  | (n, t) :: ts, m, rs =>
      if n = m then (n, ⟨t.cols, rs⟩) :: ts else (n, t) :: setRows ts m rs

/-- The column list of `CREATE TABLE IF NOT EXISTS gps(...)`
(gps.py lines 42–52). -/
def gpsCols : List String :=
  ["id", "datetime_utc", "nmea_time", "latitude", "longitude", "created_at"]

/-- `GPSLogger._init_csv`: write the header only when the file does not
exist (gps.py lines 33–38). -/
def initCsv (st : SysState) : SysState :=
  match st.csv with
  | none => { st with csv := some ⟨1, []⟩ }
  | some _ => st

/-- `GPSLogger._init_db`: `sqlite3.connect` creates the database file
if needed, then `CREATE TABLE IF NOT EXISTS gps(...)`
(gps.py lines 40–52). -/
def initDb (st : SysState) : SysState :=
  let ts := st.db.getD []
  match findTable ts "gps" with
  | some _ => { st with db := some ts }
  | none => { st with db := some (ts ++ [("gps", ⟨gpsCols, []⟩)]) }

/-- `GPSLogger.__init__`'s sink initialisation: `_init_csv` then
`_init_db` (gps.py lines 30–31). -/
def initState (st : SysState) : SysState := initDb (initCsv st)

/-- Appending one data row with `open(csv_file, 'a')`; append mode
creates a headerless file when none exists. -/
def csvAppend (st : SysState) (f : Fix) : SysState :=
  match st.csv with
  | none => { st with csv := some ⟨0, [f]⟩ }
  | some c => { st with csv := some ⟨c.header, c.rows ++ [f]⟩ }

/-- The column list named by the `INSERT INTO gps (...)` statement in
`_log_data` (gps.py line 70). Note `nmea_time_utc`, which the schema
in `_init_db` does not declare. -/
def insertCols : List String :=
  ["datetime_utc", "nmea_time_utc", "latitude", "longitude"]

/-- SQLite `INSERT INTO tname (cols) VALUES (row)`: `connect` creates
the database file, the insert errors when the table is missing or when
a named column is not in the table's schema. -/
def sqliteInsert (db : Option (List (String × Table))) (tname : String)
    (cols : List String) (row : DbRow) :
    Except String (List (String × Table)) :=
  let ts := db.getD []
  match findTable ts tname with
  | none => .error ("no such table: " ++ tname)
  | some t =>
      match cols.find? (fun c => !(t.cols.contains c)) with
      | some c => .error ("table " ++ tname ++ " has no column named " ++ c)
      | none => .ok (setRows ts tname (t.rows ++ [row]))

/-! ## `pc_time` to epoch seconds

`_log_data` runs `int(datetime.fromisoformat(pc_time).timestamp())`.
We model the wall clock as UTC, so `timestamp()` is the civil-date
epoch computation; a string outside the ISO grammar models the raised
`ValueError`. -/

/-- Days since 1970-01-01 of a civil date (the standard
days-from-civil computation; arguments are meant nonnegative). -/
def daysFromCivil (y m d : Nat) : Int :=
  let y' : Int := if m ≤ 2 then (y : Int) - 1 else (y : Int)
  let era : Int := y' / 400
  let yoe : Int := y' - era * 400
  let mp : Int := ((m : Int) + 9) % 12
  let doy : Int := (153 * mp + 2) / 5 + (d : Int) - 1
  let doe : Int := yoe * 365 + yoe / 4 - yoe / 100 + doy
  era * 146097 + doe - 719468

/-- Parse `"YYYY-MM-DD"` into year, month, day. -/
def parseIsoDate (cs : List Char) : Option (Nat × Nat × Nat) :=
  match splitOnChar '-' cs with
  | [ys, ms, ds] =>
      match parseNatDigits ys, parseNatDigits ms, parseNatDigits ds with
      | some y, some m, some d => some (y, m, d)
      | _, _, _ => none
  | _ => none

/-- Parse `"HH:MM:SS[.ffffff]"` into seconds past midnight; `int(...)`
truncates the fraction away. -/
def parseIsoTime (cs : List Char) : Option Nat :=
  match splitOnChar ':' cs with
  | [hs, ms, ss] =>
      let whole := match splitOnChar '.' ss with
        | w :: _ => w
        | [] => ss
      match parseNatDigits hs, parseNatDigits ms, parseNatDigits whole with
      | some h, some mi, some s => some (h * 3600 + mi * 60 + s)
      | _, _, _ => none
  | _ => none

/-- `int(datetime.fromisoformat(s).timestamp())` with the clock
modelled as UTC; `none` models the `ValueError` on a malformed
string. -/
def parseIsoEpoch (s : String) : Option Int :=
  match splitOnChar 'T' s.toList with
  | [d] =>
      (parseIsoDate d).map fun (y, m, dd) => daysFromCivil y m dd * 86400
  | [d, t] =>
      match parseIsoDate d, parseIsoTime t with
      | some (y, m, dd), some secs =>
          some (daysFromCivil y m dd * 86400 + (secs : Int))
      | _, _ => none
  | _ => none

example : parseIsoEpoch "2024-01-01T00:00:00" = some 1704067200 := by decide
example : parseIsoEpoch "1970-01-01T00:00:01" = some 1 := by decide

/-! ## `_log_data`: persist one fix to both sinks -/

/-- `GPSLogger._log_data` (gps.py lines 54–77): one `try` block that
appends the CSV row, converts `pc_time`, and runs the `INSERT`; the
single `except Exception` handler logs
`"Error logging data: <message>"` and returns. `csvErr` injects a
failure of the CSV write (`some m` means the `open`/`writerow` raised
an exception whose text is `m`); the database failures arise from the
model itself. Returns the new state and the log lines emitted.
(Python formats the success message's coordinates to six decimal
places; the model prints the exact rationals.) -/
def logData (csvErr : Option String) (st : SysState) (f : Fix) :
    SysState × List String :=
  match csvErr with
  | some m => (st, ["Error logging data: " ++ m])
  | none =>
      let st1 := csvAppend st f
      match parseIsoEpoch f.pc_time with
      | none =>
          (st1, ["Error logging data: Invalid isoformat string: " ++ f.pc_time])
      | some ep =>
          match sqliteInsert st1.db "gps" insertCols
              ⟨ep, f.nmea_time, f.latitude, f.longitude⟩ with
          | .error m => (st1, ["Error logging data: " ++ m])
          | .ok ts =>
              ({ st1 with db := some ts },
                ["Logged GPS: " ++ toString f.latitude ++ ", " ++
                  toString f.longitude])

/-! ## `query_gps_data`: the read-back path -/

/-- Insert into a list kept in descending `datetime_utc` order. -/
def insertDesc (r : DbRow) : List DbRow → List DbRow
  | [] => [r]
  | x :: xs =>
      if x.datetime_utc ≤ r.datetime_utc then r :: x :: xs
      else x :: insertDesc r xs

/-- Sort rows by `datetime_utc`, newest first. -/
def sortDesc (rs : List DbRow) : List DbRow := rs.foldr insertDesc []

/-- `query_gps_data` (query_db.py lines 11–44): SELECT from table
`gps_data` ordered by `datetime_utc` descending with a LIMIT; errors
when the table does not exist. -/
def queryGpsData (db : Option (List (String × Table))) (limit : Nat) :
    Except String (List DbRow) :=
  let ts := db.getD []
  match findTable ts "gps_data" with
  | none => .error "no such table: gps_data"
  | some t => .ok ((sortDesc t.rows).take limit)

/-! ## The acquisition loop and the single-shot reader -/

/-- One observable event on an open connection: a value returned by
`nmr.read()` (with the `datetime.now()` reading `pcTime` taken while
processing it and an injected CSV-write failure for the persist, if
any), a `SerialException` raised by the read, any other exception, or
a `KeyboardInterrupt`. -/
inductive ReadEvent where
  | msg (pcTime : String) (csvErr : Option String) (p : Option ParsedSentence)
  | errSerial (m : String)
  | errOther (m : String)
  | interrupt
  deriving DecidableEq, Repr

/-- The inner `while True` of `start_logging` over one open connection
(gps.py lines 133–153), consuming a finite observed trace: a decoded
`GGA` with both coordinates is persisted via `_log_data`; **every**
exception from the read — `SerialException` included — is caught by
the inner `except Exception` handler, which sleeps and continues on
the same connection; `KeyboardInterrupt` returns. Result: the final
state and whether the loop was interrupted. -/
def runConn : SysState → List ReadEvent → SysState × Bool
  | st, [] => (st, false)
  | st, e :: rest =>
      match e with
      | .interrupt => (st, true)
      | .errSerial _ => runConn st rest
      | .errOther _ => runConn st rest
      | .msg pc cErr p =>
          match extractGGA pc p with
          | .fix f => runConn (logData cErr st f).1 rest
          | _ => runConn st rest

/-- One connection attempt by the single-shot reader: opening the
serial port fails with `SerialException`, fails with another
exception, or succeeds and yields a trace of read events. -/
inductive ConnAttempt where
  | openSerialFail (m : String)
  | openOtherFail (m : String)
  | opened (events : List ReadEvent)
  deriving DecidableEq, Repr

/-- Outcome of `read_gga_single`: a normal return (`Option` of fix
data) or an uncaught `KeyboardInterrupt`. -/
inductive SingleOutcome where
  | ret (r : Option Fix)
  | interrupted
  deriving DecidableEq, Repr

/-- The `for _ in range(100)` loop of `read_gga_single` (gps.py lines
89–110): return the first valid fix; read errors are caught, sleep,
and consume an iteration; after 100 iterations (or when the trace is
cut) return `None`. -/
def runSingleConn : Nat → List ReadEvent → SingleOutcome
  | 0, _ => .ret none
  | _ + 1, [] => .ret none
  | n + 1, e :: rest =>
      match e with
      | .interrupt => .interrupted
      | .errSerial _ => runSingleConn n rest
      | .errOther _ => runSingleConn n rest
      | .msg pc _ p =>
          match extractGGA pc p with
          | .fix f => .ret (some f)
          | _ => runSingleConn n rest

/-- The `for retry in range(max_retries)` loop of `read_gga_single`
(gps.py lines 81–120), with `fuel` the number of attempts still
allowed: a `SerialException` while opening retries unless this was the
last allowed attempt; any other opening failure returns `None`; a
successful open decides the result within that connection. -/
def readGgaLoop : Nat → List ConnAttempt → SingleOutcome
  | 0, _ => .ret none
  | _ + 1, [] => .ret none
  | n + 1, a :: rest =>
      match a with
      | .openSerialFail _ => if n = 0 then .ret none else readGgaLoop n rest
      | .openOtherFail _ => .ret none
      | .opened evs => runSingleConn 100 evs

/-- `GPSLogger.read_gga_single` (gps.py lines 79–120):
`max_retries = 3`. -/
def read_gga_single (attempts : List ConnAttempt) : SingleOutcome :=
  readGgaLoop 3 attempts

/-- `read_GPS` (gps.py lines 166–178): construct a `GPSLogger` with the
default file paths — whose `__init__` runs the sink initialisation —
then call `read_gga_single`. -/
def read_GPS (st : SysState) (attempts : List ConnAttempt) :
    SingleOutcome × SysState :=
  (read_gga_single attempts, initState st)

/-! ## Observation helpers -/

/-- Data rows of the CSV file (empty when the file is absent). -/
def csvRows (st : SysState) : List Fix :=
  (st.csv.map CsvContent.rows).getD []

/-- Header rows of the CSV file. -/
def headerCount (st : SysState) : Nat :=
  (st.csv.map CsvContent.header).getD 0

/-- Rows of the `gps` table (empty when the file or table is absent). -/
def gpsRows (st : SysState) : List DbRow :=
  ((findTable (st.db.getD []) "gps").map Table.rows).getD []

/-- The fresh world: no CSV file, no database file. -/
def emptySys : SysState := ⟨none, none⟩

/-- The spec's round-trip example fix:
`pc_time "2024-01-01T00:00:00"`, `receiver_time "235959.00"`,
latitude 37.5, longitude −122.3. -/
def sampleFix : Fix :=
  ⟨"2024-01-01T00:00:00", "235959.00", mkRat 75 2, mkRat (-1223) 10⟩

/-- A decoded GGA sentence carrying the sample fix's fields. -/
def sampleSentence : ParsedSentence :=
  ⟨"GGA", some "235959.00", .val (.numv (mkRat 75 2)),
    .val (.numv (mkRat (-1223) 10))⟩

example :
    extractGGA "2024-01-01T00:00:00" (some sampleSentence) =
      .fix sampleFix := by decide

/-! ## Observation helpers for the claims -/

/-- A latitude/longitude attribute that is missing or non-numeric:
absent, or a string that `float` rejects (this includes the empty
string pynmeagps uses for a missing field). -/
def badFieldB : Field → Bool
  | .absent => true
  | .val (.numv _) => false
  | .val (.strv s) => (strParseRat s).isNone

/-- Cap an attempt's event trace at the 100 sentences the single-shot
reader examines per connection. -/
def truncAttempt : ConnAttempt → ConnAttempt
  | .opened evs => .opened (evs.take 100)
  | a => a

/-- Cap a trace at the single-shot reader's bounds: 3 connection
attempts, 100 sentences each. -/
def truncTrace (l : List ConnAttempt) : List ConnAttempt :=
  (l.take 3).map truncAttempt

/-- The fix a read event would extract, if any. -/
def eventFix : ReadEvent → Option Fix
  | .msg pc _ p => fixOf (extractGGA pc p)
  | _ => none

/-- All fixes extractable from one connection attempt, in order. -/
def attemptFixes : ConnAttempt → List Fix
  | .opened evs => evs.filterMap eventFix
  | _ => []

/-- All fixes extractable from a trace, in order. -/
def traceFixes (l : List ConnAttempt) : List Fix :=
  (l.map attemptFixes).flatten

/-- Whether a read event is not a `KeyboardInterrupt`. -/
def notInterrupt : ReadEvent → Bool
  | .interrupt => false
  | _ => true

/-- No `KeyboardInterrupt` occurs anywhere in the trace. -/
def noInterrupt (l : List ConnAttempt) : Bool :=
  l.all fun a =>
    match a with
    | .opened evs => evs.all notInterrupt
    | _ => true

end Gps

namespace Gps

/-! ## Theorems settling the claims -/

/-- **C1.** The claim says each successful `persist` inserts exactly
one row into the relational table, so after `N` persists the table
holds `N` rows matching the CSV rows. The code cannot do this: the
`INSERT` in `_log_data` names the column `nmea_time_utc`, while the
table created by `_init_db` declares `nmea_time`, so every insert
raises `sqlite3.OperationalError`; the single handler logs the error
after the CSV row was already written. Evaluated at one persist of the
sample fix from a fresh initialised state: the CSV gains one data row,
the `gps` table gains none, and the error is logged. -/
theorem c1_persist_inserts_no_db_row :
    csvRows (logData none (initState emptySys) sampleFix).1 = [sampleFix] ∧
    gpsRows (logData none (initState emptySys) sampleFix).1 = [] ∧
    (logData none (initState emptySys) sampleFix).2 =
      ["Error logging data: table gps has no column named nmea_time_utc"] := by
  decide

/-- **C2.** The claim says a `ConnectionError` raised by the read in
the `STREAMING` state unconditionally discards the connection and
reconnects. In `start_logging` the inner `except Exception` handler
also catches `SerialException`, so the loop keeps reading on the same
connection; only errors raised while *opening* the port reach the
outer `except SerialException` handler. Evaluated on one connection
whose read raises a `SerialException` and then yields a valid GGA
sentence: the sentence after the error is still processed and
persisted on the same connection, and the loop does not exit. -/
theorem c2_serial_error_not_reconnected :
    csvRows (runConn (initState emptySys)
      [ReadEvent.errSerial "device disconnected",
       ReadEvent.msg "2024-01-01T00:00:00" none (some sampleSentence)]).1 =
      [sampleFix] ∧
    (runConn (initState emptySys)
      [ReadEvent.errSerial "device disconnected",
       ReadEvent.msg "2024-01-01T00:00:00" none (some sampleSentence)]).2 =
      false := by
  decide

/-- **C8.** The claim says a persisted fix can be read back through
the query path with matching values. Two schema mismatches break the
round trip at the sample fix: the `INSERT` fails (column
`nmea_time_utc` does not exist), so the table stays empty, and
`query_gps_data` SELECTs from table `gps_data` while `_init_db`
creates table `gps`, so the query itself errors. -/
theorem c8_roundtrip_broken :
    gpsRows (logData none (initState emptySys) sampleFix).1 = [] ∧
    queryGpsData (logData none (initState emptySys) sampleFix).1.db 10 =
      .error "no such table: gps_data" := by
  decide

/-- **C3 counterexample.** The claim asserts every well-formed GGA
sentence with numeric latitude and longitude yields a Fix. A latitude
of exactly `0.0` is numeric, yet `if parsed_data.lat` is false for
`0.0`, so the coordinate is treated as absent and no Fix is produced. -/
theorem c3_counterexample_zero_latitude :
    extractGGA "2024-01-01T00:00:00"
      (some ⟨"GGA", some "000000.00", .val (.numv 0),
        .val (.numv (mkRat (-1223) 10))⟩) = .noFix := by
  decide

/-- **C7 counterexample.** The claim says `read_GPS` creates no files
or tables. `read_GPS` constructs `GPSLogger(port, baudrate)` with the
default `csv_file`/`db_file`, and its `__init__` runs `_init_csv` and
`_init_db`: starting from a world with neither file, the call creates
the CSV file with its header and the database file with the `gps`
table. -/
theorem c7_counterexample_read_GPS_creates_sinks :
    (read_GPS emptySys []).2 ≠ emptySys ∧
    (read_GPS emptySys []).2.csv = some ⟨1, []⟩ ∧
    (read_GPS emptySys []).2.db = some [("gps", ⟨gpsCols, []⟩)] := by
  decide

/-- **C9 counterexample.** The claim says a persist failure is
reported with enough context to identify which sink failed. The single
`except Exception` handler logs only `"Error logging data: "` plus the
exception text: a CSV write that raises with the same text as the
database error produces a report identical to a database failure, even
though in the first run nothing was written and in the second the CSV
row was. The report alone therefore cannot identify the failing
sink. -/
theorem c9_counterexample_ambiguous_report :
    (logData (some "table gps has no column named nmea_time_utc")
        (initState emptySys) sampleFix).2 =
      (logData none (initState emptySys) sampleFix).2 ∧
    csvRows (logData (some "table gps has no column named nmea_time_utc")
        (initState emptySys) sampleFix).1 = [] ∧
    csvRows (logData none (initState emptySys) sampleFix).1 = [sampleFix] := by
  decide

/-! ### Shared lemmas -/

theorem findTable_append (ts₁ ts₂ : List (String × Table)) (n : String) :
    findTable (ts₁ ++ ts₂) n =
      match findTable ts₁ n with
      | some t => some t
      | none => findTable ts₂ n := by
  induction ts₁ with
  | nil => rfl
  | cons p ts ih =>
      obtain ⟨nm, t⟩ := p
      by_cases h : nm = n <;> simp [findTable, h, ih]

theorem initCsv_db (st : SysState) : (initCsv st).db = st.db := by
  rcases h : st.csv with _ | c <;> simp [initCsv, h]

theorem initCsv_csv (st : SysState) :
    (initCsv st).csv = some (st.csv.getD ⟨1, []⟩) := by
  rcases h : st.csv with _ | c <;> simp [initCsv, h]

theorem initDb_csv (st : SysState) : (initDb st).csv = st.csv := by
  rcases h : findTable (st.db.getD []) "gps" with _ | t <;> simp [initDb, h]

theorem initDb_db_gps (st : SysState) :
    findTable ((initDb st).db.getD []) "gps" =
      some ((findTable (st.db.getD []) "gps").getD ⟨gpsCols, []⟩) := by
  rcases h : findTable (st.db.getD []) "gps" with _ | t <;>
    simp [initDb, h, findTable_append, findTable]

theorem initDb_idem (st : SysState) : initDb (initDb st) = initDb st := by
  rcases h : findTable (st.db.getD []) "gps" with _ | t
  · have h2 :
        findTable ((st.db.getD []) ++ [("gps", (⟨gpsCols, []⟩ : Table))])
          "gps" = some ⟨gpsCols, []⟩ := by
      rw [findTable_append, h]
      simp [findTable]
    simp [initDb, h, h2]
  · simp [initDb, h]

theorem initCsv_id_of_some (st : SysState) (h : st.csv ≠ none) :
    initCsv st = st := by
  rcases hc : st.csv with _ | c
  · exact absurd hc h
  · simp [initCsv, hc]

theorem initState_idem (st : SysState) :
    initState (initState st) = initState st := by
  unfold initState
  rw [initCsv_id_of_some _ (by rw [initDb_csv, initCsv_csv]; simp), initDb_idem]

theorem initState_csvRows (st : SysState) :
    csvRows (initState st) = csvRows st := by
  unfold initState csvRows
  rw [initDb_csv, initCsv_csv]
  rcases h : st.csv with _ | c <;> simp [h]

theorem initState_gpsRows (st : SysState) :
    gpsRows (initState st) = gpsRows st := by
  unfold initState gpsRows
  rw [initDb_db_gps]
  rw [initCsv_db]
  rcases h : findTable (st.db.getD []) "gps" with _ | t <;> simp [h]

theorem initState_header (st : SysState) :
    headerCount (initState st) =
      if st.csv = none then 1 else headerCount st := by
  unfold initState headerCount
  rw [initDb_csv, initCsv_csv]
  rcases h : st.csv with _ | c <;> simp [h]

theorem csvAppend_db (st : SysState) (f : Fix) :
    (csvAppend st f).db = st.db := by
  rcases h : st.csv with _ | c <;> simp [csvAppend, h]

theorem csvAppend_rows (st : SysState) (f : Fix) :
    csvRows (csvAppend st f) = csvRows st ++ [f] := by
  rcases h : st.csv with _ | c <;> simp [csvAppend, csvRows, h]

theorem coordOf_of_bad (fld : Field) (h : badFieldB fld = true) :
    coordOf fld = .ok none ∨ coordOf fld = .error () := by
  cases fld with
  | absent => exact .inl rfl
  | val v =>
      cases v with
      | numv q => simp [badFieldB] at h
      | strv s =>
          by_cases hs : s = ""
          · subst hs; exact .inl rfl
          · have hp : strParseRat s = none := by
              simpa [badFieldB, Option.isNone_iff_eq_none] using h
            right
            simp [coordOf, FVal.truthy, FVal.pyFloat, hs, hp]

/-! ### The claims about extraction -/

/-- **C10.** A GGA sentence whose latitude or longitude is the float
`0.0` produces no Fix: `if parsed_data.lat` (resp. `.lon`) is false
for `0.0`, so the coordinate is set to `None` and the
`latitude is not None and longitude is not None` guard fails. -/
theorem c10_zero_coordinate_dropped (pc : String) (d : ParsedSentence)
    (hid : d.msgID = "GGA")
    (h : d.lat = .val (.numv 0) ∨ d.lon = .val (.numv 0)) :
    fixOf (extractGGA pc (some d)) = none := by
  have h0 : coordOf (Field.val (FVal.numv 0)) = .ok none := by decide
  rcases h with h | h
  · simp only [extractGGA, hid, if_true, if_pos]
    rw [h, h0]
    rcases hlo : coordOf d.lon with e | o
    · rfl
    · cases o <;> rfl
  · simp only [extractGGA, hid, if_true, if_pos]
    rcases hla : coordOf d.lat with e | o
    · rfl
    · rw [h, h0]
      cases o <;> rfl

/-- Witness for C10 at a concrete zero-latitude sentence. -/
theorem c10_zero_coordinate_witness :
    (ParsedSentence.mk "GGA" (some "000000.00") (.val (.numv 0))
        (.val (.numv 1))).msgID = "GGA" ∧
    fixOf (extractGGA "t"
      (some ⟨"GGA", some "000000.00", .val (.numv 0), .val (.numv 1)⟩)) =
      none :=
  ⟨rfl, c10_zero_coordinate_dropped "t"
    ⟨"GGA", some "000000.00", .val (.numv 0), .val (.numv 1)⟩ rfl
    (Or.inl rfl)⟩

/-- **C4.** Extraction produces no Fix for a `None` read, for any
sentence whose `msgID` is not `"GGA"`, and for any GGA sentence whose
latitude or longitude attribute is missing or non-numeric (absent
attribute, empty string, or a string `float` rejects); such sentences
are never persisted, since both read paths only act on a produced
fix. -/
theorem c4_extract_rejects_bad_sentences (pc : String)
    (p : Option ParsedSentence)
    (h : p = none ∨ ∃ d, p = some d ∧
      (d.msgID ≠ "GGA" ∨ badFieldB d.lat = true ∨ badFieldB d.lon = true)) :
    fixOf (extractGGA pc p) = none := by
  rcases h with rfl | ⟨d, rfl, hd⟩
  · rfl
  · by_cases hm : d.msgID = "GGA"
    · rcases hd with hne | hl | hl
      · exact absurd hm hne
      · simp only [extractGGA, hm, if_true, if_pos]
        rcases coordOf_of_bad _ hl with hc | hc
        · rw [hc]
          rcases hlo : coordOf d.lon with e | o
          · rfl
          · cases o <;> rfl
        · rw [hc]; rfl
      · simp only [extractGGA, hm, if_true, if_pos]
        rcases hla : coordOf d.lat with e | o
        · rfl
        · rcases coordOf_of_bad _ hl with hc | hc
          · rw [hc]; cases o <;> rfl
          · rw [hc]; rfl
    · simp [extractGGA, hm, fixOf]

/-- Witness for C4 at a concrete GGA sentence with a non-numeric
latitude string. -/
theorem c4_extract_rejects_witness :
    ((some ⟨"GGA", some "000000.00", .val (.strv "abc"), .val (.numv 1)⟩ :
        Option ParsedSentence) = none ∨
      ∃ d, (some ⟨"GGA", some "000000.00", .val (.strv "abc"),
          .val (.numv 1)⟩ : Option ParsedSentence) = some d ∧
        (d.msgID ≠ "GGA" ∨ badFieldB d.lat = true ∨ badFieldB d.lon = true)) ∧
    fixOf (extractGGA "t"
      (some ⟨"GGA", some "000000.00", .val (.strv "abc"), .val (.numv 1)⟩)) =
      none :=
  ⟨Or.inr ⟨_, rfl, Or.inr (Or.inl (by decide))⟩,
    c4_extract_rejects_bad_sentences "t" _
      (Or.inr ⟨_, rfl, Or.inr (Or.inl (by decide))⟩)⟩

/-- **C3 (amended).** For every GGA sentence whose latitude and
longitude attributes are present, *truthy* (a nonzero number or a
nonempty string — the counterexample shows the value `0.0` is treated
as absent), and convertible by `float`, extraction produces a Fix
whose `receiver_time` is the sentence's stringified time attribute
verbatim and whose coordinates equal the converted values exactly
(hence within the claim's 1e-9 tolerance). -/
theorem c3_extract_truthy_numeric_fields (pc t : String) (vla vlo : FVal)
    (qla qlo : ℚ) (hta : vla.truthy = true) (htb : vlo.truthy = true)
    (hfa : vla.pyFloat = some qla) (hfb : vlo.pyFloat = some qlo) :
    extractGGA pc (some ⟨"GGA", some t, .val vla, .val vlo⟩) =
      .fix ⟨pc, t, qla, qlo⟩ := by
  simp [extractGGA, coordOf, hta, htb, hfa, hfb]

/-- Witness for the amended C3 at the sample GGA sentence. -/
theorem c3_extract_witness :
    (FVal.numv (mkRat 75 2)).truthy = true ∧
    (FVal.numv (mkRat 75 2)).pyFloat = some (mkRat 75 2) ∧
    extractGGA "2024-01-01T00:00:00"
      (some ⟨"GGA", some "235959.00", .val (.numv (mkRat 75 2)),
        .val (.numv (mkRat (-1223) 10))⟩) =
      .fix ⟨"2024-01-01T00:00:00", "235959.00", mkRat 75 2,
        mkRat (-1223) 10⟩ :=
  ⟨by decide, by decide,
    c3_extract_truthy_numeric_fields "2024-01-01T00:00:00" "235959.00"
      (.numv (mkRat 75 2)) (.numv (mkRat (-1223) 10)) _ _
      (by decide) (by decide) rfl rfl⟩

/-! ### The claims about the persistence sinks -/

/-- **C5.** Sink initialisation is idempotent: running `_init_csv` and
`_init_db` twice equals running them once, existing CSV data rows and
existing `gps`-table rows are preserved, and the header is written
exactly once — the run puts exactly one header row into a fresh file
and leaves an existing file's header count unchanged. -/
theorem c5_init_idempotent (st : SysState) :
    initState (initState st) = initState st ∧
    csvRows (initState st) = csvRows st ∧
    gpsRows (initState st) = gpsRows st ∧
    headerCount (initState st) =
      (if st.csv = none then 1 else headerCount st) :=
  ⟨initState_idem st, initState_csvRows st, initState_gpsRows st,
    initState_header st⟩

/-- **C7 (amended).** `read_GPS` never writes a data row to either
sink: the CSV data rows and the `gps` table rows after the call are
exactly those before it. (It is not fully read-only: constructing the
`GPSLogger` initialises the sinks, creating the default CSV file with
its header and the `gps` table when absent — the counterexample.) -/
theorem c7_read_GPS_writes_no_rows (st : SysState)
    (attempts : List ConnAttempt) :
    csvRows (read_GPS st attempts).2 = csvRows st ∧
    gpsRows (read_GPS st attempts).2 = gpsRows st :=
  ⟨initState_csvRows st, initState_gpsRows st⟩

/-- **C9 (amended).** Both persist failure modes are caught by the one
`except Exception` handler, which logs `"Error logging data: "` plus
the exception text — a report that does not by itself name the failing
sink (the counterexample). The loop-safety and no-rollback parts hold:
a flat-file failure leaves the state unchanged and skips the
relational write; when the flat-file write succeeds, the CSV row stays
in place even though the relational insert fails (under the schema
`_init_db` creates, every insert fails), and the table is unchanged;
and after any persist outcome the acquisition loop continues with the
remaining events. -/
theorem c9_persist_failure_behaviour (m pc : String) (cErr : Option String)
    (st : SysState) (f : Fix) (d : ParsedSentence) (evs : List ReadEvent)
    (rs : List DbRow)
    (hschema : findTable (st.db.getD []) "gps" = some ⟨gpsCols, rs⟩)
    (hx : extractGGA pc (some d) = .fix f) :
    logData (some m) st f = (st, ["Error logging data: " ++ m]) ∧
    csvRows (logData none st f).1 = csvRows st ++ [f] ∧
    gpsRows (logData none st f).1 = gpsRows st ∧
    runConn st (.msg pc cErr (some d) :: evs) =
      runConn (logData cErr st f).1 evs := by
  have hins : ∀ ep : Int, sqliteInsert st.db "gps" insertCols
      ⟨ep, f.nmea_time, f.latitude, f.longitude⟩ =
      .error "table gps has no column named nmea_time_utc" := by
    intro ep
    rw [sqliteInsert, hschema]
    simp [insertCols, gpsCols]
  refine ⟨rfl, ?_, ?_, ?_⟩
  · rcases hp : parseIsoEpoch f.pc_time with _ | ep
    · simp [logData, hp, csvAppend_rows]
    · simp [logData, hp, csvAppend_db, hins ep, csvAppend_rows]
  · rcases hp : parseIsoEpoch f.pc_time with _ | ep
    · simp [logData, hp, gpsRows, csvAppend_db]
    · simp [logData, hp, csvAppend_db, hins ep, gpsRows]
  · simp [runConn, hx]

/-- Witness for the amended C9 at a concrete persist from a fresh
initialised state. -/
theorem c9_persist_failure_witness :
    logData (some "disk full") (initState emptySys) sampleFix =
      (initState emptySys, ["Error logging data: " ++ "disk full"]) ∧
    csvRows (logData none (initState emptySys) sampleFix).1 =
      csvRows (initState emptySys) ++ [sampleFix] ∧
    gpsRows (logData none (initState emptySys) sampleFix).1 =
      gpsRows (initState emptySys) ∧
    runConn (initState emptySys)
        [ReadEvent.msg "2024-01-01T00:00:00" none (some sampleSentence)] =
      runConn (logData none (initState emptySys) sampleFix).1 [] :=
  c9_persist_failure_behaviour "disk full" "2024-01-01T00:00:00" none
    (initState emptySys) sampleFix sampleSentence [] [] (by decide)
    (by decide)

/-! ### The single-shot reader's bounds -/

theorem runSingleConn_take (n : Nat) (evs : List ReadEvent) :
    runSingleConn n evs = runSingleConn n (evs.take n) := by
  induction n generalizing evs with
  | zero => rfl
  | succ n ih =>
      cases evs with
      | nil => rfl
      | cons e rest =>
          cases e with
          | interrupt => rfl
          | errSerial m => simpa [runSingleConn] using ih rest
          | errOther m => simpa [runSingleConn] using ih rest
          | msg pc cErr p =>
              simp only [runSingleConn, List.take]
              rcases hx : extractGGA pc p with f | _ | _
              · rfl
              · exact ih rest
              · exact ih rest

theorem readGgaLoop_trunc (n : Nat) (l : List ConnAttempt) :
    readGgaLoop n l = readGgaLoop n ((l.take n).map truncAttempt) := by
  induction n generalizing l with
  | zero => rfl
  | succ n ih =>
      cases l with
      | nil => rfl
      | cons a rest =>
          cases a with
          | openSerialFail m =>
              by_cases hn : n = 0 <;>
                simp [readGgaLoop, truncAttempt, hn, ih rest]
          | openOtherFail m => rfl
          | opened evs =>
              simpa [readGgaLoop, truncAttempt] using runSingleConn_take 100 evs

theorem runSingleConn_some (n : Nat) (evs : List ReadEvent) (f : Fix)
    (h : runSingleConn n evs = .ret (some f)) :
    ((evs.take n).filterMap eventFix).head? = some f := by
  induction n generalizing evs with
  | zero => simp [runSingleConn] at h
  | succ n ih =>
      cases evs with
      | nil => simp [runSingleConn] at h
      | cons e rest =>
          cases e with
          | interrupt => simp [runSingleConn] at h
          | errSerial m =>
              simp only [runSingleConn] at h
              simpa [eventFix] using ih rest h
          | errOther m =>
              simp only [runSingleConn] at h
              simpa [eventFix] using ih rest h
          | msg pc cErr p =>
              simp only [runSingleConn] at h
              rcases hx : extractGGA pc p with g | _ | _ <;> rw [hx] at h
              · have hgf : g = f := by
                  simpa using h
                simp [eventFix, hx, fixOf, hgf]
              · simpa [eventFix, hx, fixOf] using ih rest h
              · simpa [eventFix, hx, fixOf] using ih rest h

theorem runSingleConn_none (n : Nat) (evs : List ReadEvent)
    (hni : (evs.take n).all notInterrupt = true)
    (hnf : (evs.take n).filterMap eventFix = []) :
    runSingleConn n evs = .ret none := by
  induction n generalizing evs with
  | zero => rfl
  | succ n ih =>
      cases evs with
      | nil => rfl
      | cons e rest =>
          cases e with
          | interrupt => simp [notInterrupt] at hni
          | errSerial m =>
              simp only [List.take, List.all_cons, notInterrupt,
                Bool.true_and] at hni
              simp only [List.take, List.filterMap_cons, eventFix] at hnf
              simpa [runSingleConn] using ih rest hni hnf
          | errOther m =>
              simp only [List.take, List.all_cons, notInterrupt,
                Bool.true_and] at hni
              simp only [List.take, List.filterMap_cons, eventFix] at hnf
              simpa [runSingleConn] using ih rest hni hnf
          | msg pc cErr p =>
              simp only [List.take, List.all_cons, notInterrupt,
                Bool.true_and] at hni
              simp only [List.take, List.filterMap_cons, eventFix] at hnf
              simp only [runSingleConn]
              rcases hx : extractGGA pc p with g | _ | _
              · rw [hx] at hnf
                simp [fixOf] at hnf
              · rw [hx] at hnf
                simp only [fixOf] at hnf
                exact ih rest hni hnf
              · rw [hx] at hnf
                simp only [fixOf] at hnf
                exact ih rest hni hnf

theorem readGgaLoop_some (n : Nat) (l : List ConnAttempt) (f : Fix)
    (h : readGgaLoop n l = .ret (some f)) :
    (traceFixes ((l.take n).map truncAttempt)).head? = some f := by
  induction n generalizing l with
  | zero => simp [readGgaLoop] at h
  | succ n ih =>
      cases l with
      | nil => simp [readGgaLoop] at h
      | cons a rest =>
          cases a with
          | openSerialFail m =>
              simp only [readGgaLoop] at h
              by_cases hn : n = 0
              · rw [if_pos hn] at h
                simp at h
              · rw [if_neg hn] at h
                simpa [traceFixes, truncAttempt, attemptFixes] using ih rest h
          | openOtherFail m => simp [readGgaLoop] at h
          | opened evs =>
              simp only [readGgaLoop] at h
              have := runSingleConn_some 100 evs f h
              simp [traceFixes, truncAttempt, attemptFixes,
                List.head?_append, this]

theorem readGgaLoop_none (n : Nat) (l : List ConnAttempt)
    (hni : noInterrupt ((l.take n).map truncAttempt) = true)
    (hnf : traceFixes ((l.take n).map truncAttempt) = []) :
    readGgaLoop n l = .ret none := by
  induction n generalizing l with
  | zero => rfl
  | succ n ih =>
      cases l with
      | nil => rfl
      | cons a rest =>
          cases a with
          | openSerialFail m =>
              simp only [List.take, List.map_cons, noInterrupt,
                List.all_cons, truncAttempt, Bool.true_and] at hni
              simp only [List.take, List.map_cons, traceFixes,
                truncAttempt, attemptFixes, List.flatten_cons,
                List.nil_append] at hnf
              by_cases hn : n = 0 <;>
                simp [readGgaLoop, hn, ih rest hni hnf]
          | openOtherFail m => rfl
          | opened evs =>
              simp only [List.take, List.map_cons, noInterrupt,
                List.all_cons, truncAttempt, Bool.and_eq_true] at hni
              simp only [List.take, List.map_cons, traceFixes,
                truncAttempt, attemptFixes, List.flatten_cons,
                List.append_eq_nil] at hnf
              simpa [readGgaLoop] using
                runSingleConn_none 100 evs hni.1 hnf.1

/-- **C6.** The single-shot reader is a total function of its trace
and respects its bounds: (i) its result only depends on the first 3
connection attempts and the first 100 read events of each (the
truncation equality); (ii) when it returns a fix, that fix is the
first valid fix extractable within those bounds; (iii) when, within
the bounds, no event yields a valid fix (and no `KeyboardInterrupt`
occurs), it returns `None`. Termination is by construction: the model
is structurally recursive on the `range(3)`/`range(100)` counters,
mirroring the bounded `for` loops. -/
theorem c6_single_shot_bounded (attempts : List ConnAttempt) :
    read_gga_single attempts = read_gga_single (truncTrace attempts) ∧
    (∀ f, read_gga_single attempts = .ret (some f) →
      (traceFixes (truncTrace attempts)).head? = some f) ∧
    (noInterrupt (truncTrace attempts) = true →
      traceFixes (truncTrace attempts) = [] →
      read_gga_single attempts = .ret none) := by
  refine ⟨?_, ?_, ?_⟩
  · show readGgaLoop 3 attempts = readGgaLoop 3 (truncTrace attempts)
    calc readGgaLoop 3 attempts
        = readGgaLoop 3 ((attempts.take 3).map truncAttempt) :=
          readGgaLoop_trunc 3 attempts
      _ = readGgaLoop 3 (truncTrace attempts) := rfl
  · intro f h
    exact readGgaLoop_some 3 attempts f h
  · intro hni hnf
    exact readGgaLoop_none 3 attempts hni hnf

/-- Witness for C6: a trace of one failed serial open (no fixes, no
interrupts within bounds) returns `None`. -/
theorem c6_single_shot_witness :
    noInterrupt (truncTrace [ConnAttempt.openSerialFail "no device"]) =
      true ∧
    traceFixes (truncTrace [ConnAttempt.openSerialFail "no device"]) =
      [] ∧
    read_gga_single [ConnAttempt.openSerialFail "no device"] = .ret none :=
  ⟨by decide, by decide,
    (c6_single_shot_bounded [ConnAttempt.openSerialFail "no device"]).2.2
      (by decide) (by decide)⟩

end Gps
